import Mathlib

/-!
Shallow embedding of the consumer side of the Android BufferQueue
(`libs/gui/BufferQueueConsumer.cpp`) and of the frame-ordering notification
path of `services/surfaceflinger/BufferLayer.cpp`, together with theorems
settling the specification claims about them.

Conventions of the embedding:
* `nsecs_t` (64-bit signed nanoseconds) is modelled as `Int`; the source code
  itself assumes monotonic clock values stay far from the 64-bit bounds
  ("Code assumes monotonic time values from the system clock are positive"),
  so no wrap-around is modelled.
* `uint64_t` frame numbers and `uint32_t` generation numbers are modelled as
  `Nat`; no operation in the modelled code can overflow them.
* Pointers that may be null are modelled with `Option`; `sp<Fence>` is
  modelled by `FenceRef`, which distinguishes the null pointer from the
  non-null `Fence::NO_FENCE` sentinel.
* The slot array `mSlots[NUM_BUFFER_SLOTS]` is a `List BufferSlot` of length
  `NUM_BUFFER_SLOTS` (64), indexed with `List.getD` / updated with `List.set`.
* Mutex acquisition, tracing and logging are invisible to the state machine
  and are not modelled; the deferred (post-unlock) listener callbacks are
  modelled by explicit counters in the operation results.
-/

namespace Android

/-- Return statuses used by the consumer endpoint (`status_t` values). -/
inductive Status where
  | NO_ERROR
  | BAD_VALUE
  | INVALID_OPERATION
  | NO_BUFFER_AVAILABLE
  | PRESENT_LATER
  | STALE_BUFFER_SLOT
  | NO_MEMORY
  | NO_INIT
deriving Repr, DecidableEq

/-- Lifecycle states of a buffer slot (`BufferSlot::BufferState`). -/
inductive BufferState where
  | FREE
  | DEQUEUED
  | QUEUED
  | ACQUIRED
  | SHARED
deriving Repr, DecidableEq

/-- A graphics buffer, reduced to the identity of its handle and its
generation number (`GraphicBuffer::getGenerationNumber`). -/
structure GraphicBuffer where
  handle : Nat
  generationNumber : Nat
deriving Repr, DecidableEq

/-- A fence reference (`sp<Fence>`): the null pointer, the distinguished
non-null `Fence::NO_FENCE` sentinel, or a real fence. -/
inductive FenceRef where
  | null
  | noFence
  | fence (id : Nat)
deriving Repr, DecidableEq

/-- One row of the slot table (`BufferSlot`), restricted to the fields the
consumer endpoint reads or writes. -/
structure BufferSlot where
  mGraphicBuffer : Option GraphicBuffer
  mBufferState : BufferState
  mFence : FenceRef
  mFrameNumber : Nat
  mAcquireCalled : Bool
  mAttachedByConsumer : Bool
  mNeedsCleanupOnRelease : Bool
  mEglDisplay : Nat
  mEglFence : Nat
deriving Repr, DecidableEq

/-- A freshly created slot: FREE, no buffer, counters zeroed. -/
def emptySlot : BufferSlot :=
  { mGraphicBuffer := none
    mBufferState := BufferState.FREE
    mFence := FenceRef.noFence
    mFrameNumber := 0
    mAcquireCalled := false
    mAttachedByConsumer := false
    mNeedsCleanupOnRelease := false
    mEglDisplay := 0
    mEglFence := 0 }

/-- One FrameQueue entry (`BufferItem`), restricted to the fields the
consumer endpoint reads or writes. -/
structure BufferItem where
  mSlot : Nat
  mGraphicBuffer : Option GraphicBuffer
  mFrameNumber : Nat
  mTimestamp : Int
  mIsAutoTimestamp : Bool
  mAcquireCalled : Bool
deriving Repr, DecidableEq

/-- `BufferQueueDefs::NUM_BUFFER_SLOTS`. -/
def NUM_BUFFER_SLOTS : Nat := 64

/-- `BufferQueueCore::NO_CONNECTED_API`. -/
def NO_CONNECTED_API : Nat := 0

/-- Modelled from the spec: `BufferQueueCore::MAX_MAX_ACQUIRED_BUFFERS` lives
in the core header, which is not part of this repository snapshot; per §6 of
the spec it is "a build-time constant (typically equal to slot count)". -/
def MAX_MAX_ACQUIRED_BUFFERS : Nat := 64

/-- The shared core state (`BufferQueueCore`) as observed by the consumer
endpoint: slot table, FrameQueue, free pools and connection state. -/
structure BufferQueueCore where
  mSlots : List BufferSlot
  mQueue : List BufferItem
  mFreeSlots : List Nat
  mFreeBuffers : List Nat
  mMaxAcquiredBufferCount : Nat
  mIsAbandoned : Bool
  mConsumerListener : Option Nat
  mConnectedProducerListener : Option Nat
  mGenerationNumber : Nat
  mConnectedApi : Nat
  mUseAsyncBuffer : Bool
  mConsumerControlledByApp : Bool
  mDefaultWidth : Nat
  mDefaultHeight : Nat
  mDefaultBufferFormat : Nat
  mDefaultBufferDataSpace : Nat
  mConsumerUsageBits : Nat
  mTransformHint : Nat
  mConsumerName : Nat
deriving Repr, DecidableEq

/-- Number of slots currently in the ACQUIRED state: the counting loop at the
top of `acquireBuffer` and `attachBuffer`. -/
def countAcquired (slots : List BufferSlot) : Nat :=
  slots.countP (fun s => decide (s.mBufferState = BufferState.ACQUIRED))

/-- Modelled from the spec: `BufferQueueCore::stillTracking` is implemented in
`BufferQueueCore.cpp`, which is not part of this repository snapshot; per §4.2
of the spec an entry is still tracked when its slot is "present in SlotTable,
same buffer", i.e. the slot holds a buffer with the entry's handle. -/
def stillTracking (slots : List BufferSlot) (item : BufferItem) : Bool :=
  match (slots.getD item.mSlot emptySlot).mGraphicBuffer, item.mGraphicBuffer with
  | some slotBuffer, some itemBuffer => slotBuffer.handle == itemBuffer.handle
  | _, _ => false

/-- `MAX_REASONABLE_NSEC` from `acquireBuffer`: one second in nanoseconds. -/
def MAX_REASONABLE_NSEC : Int := 1000000000

/-- `bufferIsDue` from `acquireBuffer`: the front buffer should be shown now,
either because its desired present time has arrived or because that time is
implausibly far (more than one second) in the future. -/
def bufferIsDue (desiredPresent expectedPresent : Int) : Bool :=
  decide (desiredPresent ≤ expectedPresent) ||
    decide (desiredPresent > expectedPresent + MAX_REASONABLE_NSEC)

/-- `consumerIsReady` from `acquireBuffer`: when `maxFrameNumber` is nonzero
it caps the acceptable frame numbers. -/
def consumerIsReady (maxFrameNumber frameNumber : Nat) : Bool :=
  if maxFrameNumber > 0 then decide (frameNumber ≤ maxFrameNumber) else true

/-- Output of the frame-drop loop of `acquireBuffer`: the updated slot table
and free-buffer list, the final front entry and the remaining queue behind
it, the number of dropped (still-tracked) entries and the captured producer
listener. -/
structure DropResult where
  slots : List BufferSlot
  freeBuffers : List Nat
  front : BufferItem
  rest : List BufferItem
  numDropped : Nat
  listener : Option Nat
deriving Repr, DecidableEq

/-- The frame-drop loop of `acquireBuffer` (the `while` loop over the queue):
while there is a second entry, the front is not auto-timestamped, the second
entry's frame number is acceptable and its desired present time falls within
`[expectedPresent - 1 s, expectedPresent]`, the front entry is erased; if the
front is still tracked its slot is marked FREE, pushed on `mFreeBuffers`, the
connected producer listener is captured and the drop counter incremented. -/
def dropLoop (cpl : Option Nat) (expectedPresent : Int) (maxFrameNumber : Nat)
    (slots : List BufferSlot) (freeBuffers : List Nat)
    (front : BufferItem) (rest : List BufferItem)
    (numDropped : Nat) (listener : Option Nat) : DropResult :=
  match rest with
  | [] => ⟨slots, freeBuffers, front, rest, numDropped, listener⟩
  | second :: rest2 =>
    if front.mIsAutoTimestamp then
      ⟨slots, freeBuffers, front, second :: rest2, numDropped, listener⟩
    else if maxFrameNumber ≠ 0 ∧ second.mFrameNumber > maxFrameNumber then
      ⟨slots, freeBuffers, front, second :: rest2, numDropped, listener⟩
    else if second.mTimestamp < expectedPresent - MAX_REASONABLE_NSEC ∨
        second.mTimestamp > expectedPresent then
      ⟨slots, freeBuffers, front, second :: rest2, numDropped, listener⟩
    else if stillTracking slots front then
      dropLoop cpl expectedPresent maxFrameNumber
        (slots.set front.mSlot
          { slots.getD front.mSlot emptySlot with mBufferState := BufferState.FREE })
        (freeBuffers ++ [front.mSlot]) second rest2 (numDropped + 1) cpl
    else
      dropLoop cpl expectedPresent maxFrameNumber slots freeBuffers
        second rest2 numDropped listener

/-- Result of `acquireBuffer`: the status, the core state at exit, the item
written through `outBuffer` (if any), the drop counter, the producer listener
captured for deferred callbacks (if any capture happened), and the number of
`onBufferReleased` callbacks actually issued after the lock is released. -/
structure AcquireResult where
  status : Status
  core : BufferQueueCore
  outBuffer : Option BufferItem
  numDroppedBuffers : Nat
  listener : Option Nat
  releaseCallbackCount : Nat
deriving Repr, DecidableEq

/-- The tail of `acquireBuffer` after the timing checks: copy the front entry
out, update its slot when it is still tracked, null the outgoing buffer
handle when the entry had already been acquired once, pop the front, and
issue one deferred `onBufferReleased` per dropped buffer when a non-null
listener was captured. -/
def acquireFront (core : BufferQueueCore) (front : BufferItem)
    (rest : List BufferItem) (numDropped : Nat)
    (listener : Option Nat) : AcquireResult :=
  let slots2 :=
    if stillTracking core.mSlots front then
      core.mSlots.set front.mSlot
        { core.mSlots.getD front.mSlot emptySlot with
            mAcquireCalled := true
            mNeedsCleanupOnRelease := false
            mBufferState := BufferState.ACQUIRED
            mFence := FenceRef.noFence }
    else core.mSlots
  let outB := if front.mAcquireCalled then { front with mGraphicBuffer := none } else front
  { status := Status.NO_ERROR
    core := { core with mSlots := slots2, mQueue := rest }
    outBuffer := some outB
    numDroppedBuffers := numDropped
    listener := listener
    releaseCallbackCount := if listener.isSome then numDropped else 0 }

/-- `BufferQueueConsumer::acquireBuffer`. -/
def acquireBuffer (core : BufferQueueCore) (expectedPresent : Int)
    (maxFrameNumber : Nat) : AcquireResult :=
  if core.mMaxAcquiredBufferCount + 1 ≤ countAcquired core.mSlots then
    { status := Status.INVALID_OPERATION, core := core, outBuffer := none
      numDroppedBuffers := 0, listener := none, releaseCallbackCount := 0 }
  else
    match core.mQueue with
    | [] =>
      { status := Status.NO_BUFFER_AVAILABLE, core := core, outBuffer := none
        numDroppedBuffers := 0, listener := none, releaseCallbackCount := 0 }
    | front0 :: rest0 =>
      if expectedPresent ≠ 0 then
        let d := dropLoop core.mConnectedProducerListener expectedPresent
          maxFrameNumber core.mSlots core.mFreeBuffers front0 rest0 0 none
        let core1 := { core with
          mSlots := d.slots, mFreeBuffers := d.freeBuffers
          mQueue := d.front :: d.rest }
        if !(bufferIsDue d.front.mTimestamp expectedPresent) ||
            !(consumerIsReady maxFrameNumber d.front.mFrameNumber) then
          { status := Status.PRESENT_LATER, core := core1, outBuffer := none
            numDroppedBuffers := d.numDropped, listener := d.listener
            releaseCallbackCount := 0 }
        else
          acquireFront core1 d.front d.rest d.numDropped d.listener
      else
        acquireFront core front0 rest0 0 none

/-- `BufferQueueConsumer::releaseBuffer`. The third component of the result
counts the `onBufferReleased` callbacks issued after the lock is released
(one when a non-null producer listener was captured on the ACQUIRED path). -/
def releaseBuffer (core : BufferQueueCore) (slot : Nat) (frameNumber : Nat)
    (releaseFence : FenceRef) (eglDisplay eglFence : Nat) :
    Status × BufferQueueCore × Nat :=
  if NUM_BUFFER_SLOTS ≤ slot ∨ releaseFence = FenceRef.null then
    (Status.BAD_VALUE, core, 0)
  else
    let sl := core.mSlots.getD slot emptySlot
    if frameNumber ≠ sl.mFrameNumber then
      (Status.STALE_BUFFER_SLOT, core, 0)
    else if core.mQueue.any (fun current => current.mSlot == slot) then
      (Status.BAD_VALUE, core, 0)
    else if sl.mBufferState = BufferState.ACQUIRED then
      (Status.NO_ERROR,
        { core with
            mSlots := core.mSlots.set slot
              { sl with
                  mEglDisplay := eglDisplay
                  mEglFence := eglFence
                  mFence := releaseFence
                  mBufferState := BufferState.FREE }
            mFreeBuffers := core.mFreeBuffers ++ [slot] },
        if core.mConnectedProducerListener.isSome then 1 else 0)
    else if sl.mNeedsCleanupOnRelease then
      (Status.STALE_BUFFER_SLOT,
        { core with
            mSlots := core.mSlots.set slot { sl with mNeedsCleanupOnRelease := false } },
        0)
    else
      (Status.BAD_VALUE, core, 0)

/-- `BufferQueueConsumer::attachBuffer`. `outSlotProvided` is false when the
caller passes a null `outSlot`; `buffer` is none for a null buffer. The third
component is the slot index written through `outSlot`. -/
def attachBuffer (core : BufferQueueCore) (outSlotProvided : Bool)
    (buffer : Option GraphicBuffer) : Status × BufferQueueCore × Option Nat :=
  if !outSlotProvided then (Status.BAD_VALUE, core, none)
  else
    match buffer with
    | none => (Status.BAD_VALUE, core, none)
    | some buf =>
      if core.mMaxAcquiredBufferCount + 1 ≤ countAcquired core.mSlots then
        (Status.INVALID_OPERATION, core, none)
      else if buf.generationNumber ≠ core.mGenerationNumber then
        (Status.BAD_VALUE, core, none)
      else
        let foundAndPools : Option Nat × List Nat × List Nat :=
          match core.mFreeSlots with
          | s :: restSlots => (some s, restSlots, core.mFreeBuffers)
          | [] =>
            match core.mFreeBuffers with
            | f :: _ => (some f, core.mFreeSlots, core.mFreeBuffers.filter (fun x => x ≠ f))
            | [] => (none, core.mFreeSlots, core.mFreeBuffers)
        match foundAndPools with
        | (none, _, _) => (Status.NO_MEMORY, core, none)
        | (some found, freeSlots2, freeBuffers2) =>
          (Status.NO_ERROR,
            { core with
                mFreeSlots := freeSlots2
                mFreeBuffers := freeBuffers2
                mSlots := core.mSlots.set found
                  { core.mSlots.getD found emptySlot with
                      mGraphicBuffer := some buf
                      mBufferState := BufferState.ACQUIRED
                      mAttachedByConsumer := true
                      mNeedsCleanupOnRelease := false
                      mFence := FenceRef.noFence
                      mFrameNumber := 0
                      mAcquireCalled := false } },
            some found)

/-- Modelled from the spec: `BufferQueueCore::freeBufferLocked` is implemented
in `BufferQueueCore.cpp`, which is not part of this repository snapshot; per
§3 and §4.2 of the spec, detaching "removes the buffer and transitions to
FREE with no buffer (slot goes to `free_slots`)". -/
def freeBufferLocked (core : BufferQueueCore) (slot : Nat) : BufferQueueCore :=
  { core with
      mSlots := core.mSlots.set slot
        { core.mSlots.getD slot emptySlot with
            mGraphicBuffer := none
            mBufferState := BufferState.FREE
            mAcquireCalled := false
            mFence := FenceRef.noFence }
      mFreeSlots := slot :: core.mFreeSlots
      mFreeBuffers := core.mFreeBuffers.filter (fun x => x ≠ slot) }

/-- `BufferQueueConsumer::detachBuffer`. -/
def detachBuffer (core : BufferQueueCore) (slot : Nat) : Status × BufferQueueCore :=
  if core.mIsAbandoned then (Status.NO_INIT, core)
  else if NUM_BUFFER_SLOTS ≤ slot then (Status.BAD_VALUE, core)
  else if (core.mSlots.getD slot emptySlot).mBufferState ≠ BufferState.ACQUIRED then
    (Status.BAD_VALUE, core)
  else
    (Status.NO_ERROR, freeBufferLocked core slot)

/-- `BufferQueueConsumer::connect`. -/
def connect (core : BufferQueueCore) (consumerListener : Option Nat)
    (controlledByApp : Bool) : Status × BufferQueueCore :=
  match consumerListener with
  | none => (Status.BAD_VALUE, core)
  | some l =>
    if core.mIsAbandoned then (Status.NO_INIT, core)
    else
      (Status.NO_ERROR,
        { core with mConsumerListener := some l
                    mConsumerControlledByApp := controlledByApp })

/-- Modelled from the spec: `BufferQueueCore::freeAllBuffersLocked` is
implemented in `BufferQueueCore.cpp`, which is not part of this repository
snapshot; per §3 and §4.2 of the spec, disconnect "frees every slot": all
slots return to FREE with no buffer and form the `free_slots` pool. -/
def freeAllBuffersLocked (core : BufferQueueCore) : BufferQueueCore :=
  { core with
      mSlots := List.replicate NUM_BUFFER_SLOTS emptySlot
      mFreeSlots := List.range NUM_BUFFER_SLOTS
      mFreeBuffers := [] }

/-- `BufferQueueConsumer::disconnect`. -/
def disconnect (core : BufferQueueCore) : Status × BufferQueueCore :=
  if core.mConsumerListener.isNone then (Status.BAD_VALUE, core)
  else
    (Status.NO_ERROR,
      freeAllBuffersLocked
        { core with
            mIsAbandoned := true
            mConsumerListener := none
            mQueue := [] })

/-- `BufferQueueConsumer::getReleasedBuffers`. `outMaskProvided` is false when
the caller passes a null `outSlotMask`; the second component is the mask
written back (bit `s` clear again for queued entries with `mAcquireCalled`). -/
def getReleasedBuffers (core : BufferQueueCore) (outMaskProvided : Bool) :
    Status × Option Nat :=
  if !outMaskProvided then (Status.BAD_VALUE, none)
  else if core.mIsAbandoned then (Status.NO_INIT, none)
  else
    let mask0 := (List.range NUM_BUFFER_SLOTS).foldl
      (fun m s => if (core.mSlots.getD s emptySlot).mAcquireCalled then m else m ||| (1 <<< s)) 0
    let mask := core.mQueue.foldl
      (fun m current =>
        if current.mAcquireCalled then
          if m.testBit current.mSlot then m - (1 <<< current.mSlot) else m
        else m) mask0
    (Status.NO_ERROR, some mask)

/-- `BufferQueueConsumer::setDefaultBufferSize`. -/
def setDefaultBufferSize (core : BufferQueueCore) (width height : Nat) :
    Status × BufferQueueCore :=
  if width = 0 ∨ height = 0 then (Status.BAD_VALUE, core)
  else (Status.NO_ERROR, { core with mDefaultWidth := width, mDefaultHeight := height })

/-- `BufferQueueConsumer::disableAsyncBuffer`. -/
def disableAsyncBuffer (core : BufferQueueCore) : Status × BufferQueueCore :=
  if core.mConsumerListener.isSome then (Status.INVALID_OPERATION, core)
  else (Status.NO_ERROR, { core with mUseAsyncBuffer := false })

/-- `BufferQueueConsumer::setMaxAcquiredBufferCount`. -/
def setMaxAcquiredBufferCount (core : BufferQueueCore) (maxAcquiredBuffers : Nat) :
    Status × BufferQueueCore :=
  if maxAcquiredBuffers < 1 ∨ maxAcquiredBuffers > MAX_MAX_ACQUIRED_BUFFERS then
    (Status.BAD_VALUE, core)
  else if core.mConnectedApi ≠ NO_CONNECTED_API then (Status.INVALID_OPERATION, core)
  else (Status.NO_ERROR, { core with mMaxAcquiredBufferCount := maxAcquiredBuffers })

/-- `BufferQueueConsumer::setConsumerName` (returns void). -/
def setConsumerName (core : BufferQueueCore) (name : Nat) : BufferQueueCore :=
  { core with mConsumerName := name }

/-- `BufferQueueConsumer::setDefaultBufferFormat`. -/
def setDefaultBufferFormat (core : BufferQueueCore) (defaultFormat : Nat) :
    Status × BufferQueueCore :=
  (Status.NO_ERROR, { core with mDefaultBufferFormat := defaultFormat })

/-- `BufferQueueConsumer::setDefaultBufferDataSpace`. -/
def setDefaultBufferDataSpace (core : BufferQueueCore) (defaultDataSpace : Nat) :
    Status × BufferQueueCore :=
  (Status.NO_ERROR, { core with mDefaultBufferDataSpace := defaultDataSpace })

/-- `BufferQueueConsumer::setConsumerUsageBits`. -/
def setConsumerUsageBits (core : BufferQueueCore) (usage : Nat) :
    Status × BufferQueueCore :=
  (Status.NO_ERROR, { core with mConsumerUsageBits := usage })

/-- `BufferQueueConsumer::setTransformHint`. -/
def setTransformHint (core : BufferQueueCore) (hint : Nat) :
    Status × BufferQueueCore :=
  (Status.NO_ERROR, { core with mTransformHint := hint })

/-- The given core with its abandoned flag replaced. -/
def setAbandoned (core : BufferQueueCore) (b : Bool) : BufferQueueCore :=
  { core with mIsAbandoned := b }

/-! The frame-ordering notification path of `BufferLayer`
(`onFrameAvailable` / `onFrameReplaced`). -/

/-- Per-layer state touched by the notification path of `BufferLayer`:
the frame-number tracker, the shadow queue and the queued-frames counter. -/
structure LayerState where
  mLastFrameNumberReceived : Nat
  mQueueItems : List BufferItem
  mQueuedFrames : Nat
deriving Repr, DecidableEq

/-- The ordering wait loop of `BufferLayer::onFrameAvailable` and
`onFrameReplaced`, executed under the assumption that the in-order
predecessor notification never arrives: each `waitRelative` call times out
after 500 ms, a warning is logged, and the loop re-checks the unchanged
condition. `waits` bounds the number of timed-out waits observed; the result
is true when the loop has exited within that many waits. -/
def orderingWaitExits (lastFrameNumberReceived frameNumber : Nat) (waits : Nat) : Bool :=
  match waits with
  | 0 => frameNumber == lastFrameNumberReceived + 1
  | w + 1 =>
    if frameNumber == lastFrameNumberReceived + 1 then true
    else orderingWaitExits lastFrameNumberReceived frameNumber w

/-- `BufferLayer::onFrameAvailable` under the assumption that no concurrent
notification updates `mLastFrameNumberReceived` while this call waits:
returns the updated layer state, or `none` when the call is still blocked in
the ordering wait loop after `waits` timed-out 500 ms waits. -/
def onFrameAvailableNoPredecessor (layer : LayerState) (item : BufferItem)
    (waits : Nat) : Option LayerState :=
  let last0 := if item.mFrameNumber = 1 then 0 else layer.mLastFrameNumberReceived
  if orderingWaitExits last0 item.mFrameNumber waits then
    some { mLastFrameNumberReceived := item.mFrameNumber
           mQueueItems := layer.mQueueItems ++ [item]
           mQueuedFrames := layer.mQueuedFrames + 1 }
  else none

/-- `BufferLayer::onFrameReplaced` under the same no-predecessor assumption:
no frame-number reset, and on exit from the wait the last shadow-queue entry
is overwritten in place (or the call logs and returns when the shadow queue
is empty). -/
def onFrameReplacedNoPredecessor (layer : LayerState) (item : BufferItem)
    (waits : Nat) : Option LayerState :=
  if orderingWaitExits layer.mLastFrameNumberReceived item.mFrameNumber waits then
    if layer.mQueueItems.isEmpty then some layer
    else
      some { mLastFrameNumberReceived := item.mFrameNumber
             mQueueItems := layer.mQueueItems.dropLast ++ [item]
             mQueuedFrames := layer.mQueuedFrames }
  else none

/-! Concrete sample states, used to instantiate the theorems below. -/

/-- A consumer-connected, producer-connected core with empty queue and all
64 slots fresh. -/
def sampleBaseCore : BufferQueueCore :=
  { mSlots := List.replicate 64 emptySlot
    mQueue := []
    mFreeSlots := []
    mFreeBuffers := []
    mMaxAcquiredBufferCount := 1
    mIsAbandoned := false
    mConsumerListener := some 11
    mConnectedProducerListener := some 7
    mGenerationNumber := 0
    mConnectedApi := 0
    mUseAsyncBuffer := true
    mConsumerControlledByApp := false
    mDefaultWidth := 1
    mDefaultHeight := 1
    mDefaultBufferFormat := 1
    mDefaultBufferDataSpace := 0
    mConsumerUsageBits := 0
    mTransformHint := 0
    mConsumerName := 0 }

/-- A slot holding the given buffer in the given state with the given frame
number. -/
def slotWith (b : GraphicBuffer) (st : BufferState) (fn : Nat) : BufferSlot :=
  { emptySlot with mGraphicBuffer := some b, mBufferState := st, mFrameNumber := fn }

/-- The buffer resident in slot 3 of the samples. -/
def sampleBuffer3 : GraphicBuffer := ⟨3, 0⟩

/-- The buffer resident in slot 7 of the samples. -/
def sampleBuffer7 : GraphicBuffer := ⟨7, 0⟩

/-- Queue entry for frame 1 in slot 3, explicit timestamp 10⁹ ns. -/
def sampleItem1 : BufferItem :=
  { mSlot := 3, mGraphicBuffer := some sampleBuffer3, mFrameNumber := 1
    mTimestamp := 1000000000, mIsAutoTimestamp := false, mAcquireCalled := false }

/-- Queue entry for frame 2 in slot 7, explicit timestamp 2·10⁹ ns. -/
def sampleItem2 : BufferItem :=
  { mSlot := 7, mGraphicBuffer := some sampleBuffer7, mFrameNumber := 2
    mTimestamp := 2000000000, mIsAutoTimestamp := false, mAcquireCalled := false }

/-- Core with two queued frames (slots 3 and 7). -/
def sampleCoreTwoQueued : BufferQueueCore :=
  { sampleBaseCore with
      mSlots := ((List.replicate 64 emptySlot).set 3 (slotWith sampleBuffer3 BufferState.QUEUED 1)).set 7
        (slotWith sampleBuffer7 BufferState.QUEUED 2)
      mQueue := [sampleItem1, sampleItem2] }

/-- Core with one queued frame in slot 3 whose desired present time is
1.5·10⁹ ns (the PRESENT_LATER scenario of the spec). -/
def sampleCoreLater : BufferQueueCore :=
  { sampleBaseCore with
      mSlots := (List.replicate 64 emptySlot).set 3 (slotWith sampleBuffer3 BufferState.QUEUED 1)
      mQueue := [{ sampleItem1 with mTimestamp := 1500000000 }] }

/-- Core with one queued frame numbered 5 in slot 3 (the max-frame-number
scenario of the spec). -/
def sampleCoreFrame5 : BufferQueueCore :=
  { sampleBaseCore with
      mSlots := (List.replicate 64 emptySlot).set 3 (slotWith sampleBuffer3 BufferState.QUEUED 5)
      mQueue := [{ sampleItem1 with mFrameNumber := 5 }] }

/-- Core with slot 3 ACQUIRED at frame 1 and nothing queued. -/
def sampleCoreAcquired : BufferQueueCore :=
  { sampleBaseCore with
      mSlots := (List.replicate 64 emptySlot).set 3 (slotWith sampleBuffer3 BufferState.ACQUIRED 1) }

/-- Core whose acquired-count cap is already reached (two ACQUIRED slots with
`max_acquired_buffer_count = 1`). -/
def sampleCoreAtCap : BufferQueueCore :=
  { sampleBaseCore with
      mSlots := ((List.replicate 64 emptySlot).set 0 (slotWith ⟨1, 0⟩ BufferState.ACQUIRED 1)).set 1
        (slotWith ⟨2, 0⟩ BufferState.ACQUIRED 2) }

/-- An abandoned core (as left behind by consumer disconnect). -/
def sampleCoreAbandoned : BufferQueueCore :=
  { sampleBaseCore with mIsAbandoned := true }

/-- Core whose queued front entry is no longer tracked: slot 3 holds a
different buffer than the entry references. -/
def sampleCoreUntracked : BufferQueueCore :=
  { sampleBaseCore with
      mSlots := (List.replicate 64 emptySlot).set 3 (slotWith ⟨99, 0⟩ BufferState.FREE 9)
      mQueue := [sampleItem1] }

/-- A layer that has accepted frame 1. -/
def sampleLayer : LayerState := ⟨1, [], 0⟩

/-- An out-of-order item: frame 3 arriving when frame 2 is expected. -/
def sampleLateItem : BufferItem := { sampleItem1 with mFrameNumber := 3 }

/-! Helper lemmas. -/

theorem bufferIsDue_eq_true_iff (d e : Int) :
    bufferIsDue d e = true ↔ (d ≤ e ∨ d > e + MAX_REASONABLE_NSEC) := by
  simp [bufferIsDue]

theorem consumerIsReady_eq_true_iff (mfn fn : Nat) :
    consumerIsReady mfn fn = true ↔ (mfn = 0 ∨ fn ≤ mfn) := by
  by_cases h : mfn > 0
  · simp only [consumerIsReady, if_pos h, decide_eq_true_eq]
    omega
  · have h0 : mfn = 0 := by omega
    simp [consumerIsReady, h0]

/-- The drop loop either changes nothing at all or ends on a front entry that
is both due and acceptable to the consumer. -/
theorem dropLoop_eq_or_due (cpl : Option Nat) (ep : Int) (mfn : Nat) :
    ∀ (rest : List BufferItem) (slots : List BufferSlot) (fb : List Nat)
      (front : BufferItem) (nd : Nat) (ls : Option Nat),
      dropLoop cpl ep mfn slots fb front rest nd ls =
        ⟨slots, fb, front, rest, nd, ls⟩ ∨
      (bufferIsDue (dropLoop cpl ep mfn slots fb front rest nd ls).front.mTimestamp ep = true ∧
       consumerIsReady mfn (dropLoop cpl ep mfn slots fb front rest nd ls).front.mFrameNumber = true) := by
  intro rest
  induction rest with
  | nil => intro slots fb front nd ls; left; rfl
  | cons second rest2 ih =>
    intro slots fb front nd ls
    by_cases hauto : front.mIsAutoTimestamp
    · left; simp [dropLoop, hauto]
    · by_cases hgate : mfn ≠ 0 ∧ second.mFrameNumber > mfn
      · left; simp [dropLoop, hauto, hgate]
      · by_cases htime : second.mTimestamp < ep - MAX_REASONABLE_NSEC ∨ second.mTimestamp > ep
        · left; simp [dropLoop, hauto, hgate, htime]
        · right
          have hdue : bufferIsDue second.mTimestamp ep = true := by
            rw [bufferIsDue_eq_true_iff]
            push_neg at htime
            exact Or.inl htime.2
          have hready : consumerIsReady mfn second.mFrameNumber = true := by
            rw [consumerIsReady_eq_true_iff]
            by_cases h0 : mfn = 0
            · exact Or.inl h0
            · right
              by_contra hlt
              exact hgate ⟨h0, by omega⟩
          by_cases htrack : stillTracking slots front
          · have hrw : dropLoop cpl ep mfn slots fb front (second :: rest2) nd ls =
                dropLoop cpl ep mfn
                  (slots.set front.mSlot
                    { slots.getD front.mSlot emptySlot with mBufferState := BufferState.FREE })
                  (fb ++ [front.mSlot]) second rest2 (nd + 1) cpl := by
              simp [dropLoop, hauto, hgate, htime, htrack]
            rw [hrw]
            rcases ih (slots.set front.mSlot
                { slots.getD front.mSlot emptySlot with mBufferState := BufferState.FREE })
                (fb ++ [front.mSlot]) second (nd + 1) cpl with hid | hdue2
            · rw [hid]; exact ⟨hdue, hready⟩
            · exact hdue2
          · have hrw : dropLoop cpl ep mfn slots fb front (second :: rest2) nd ls =
                dropLoop cpl ep mfn slots fb second rest2 nd ls := by
              simp [dropLoop, hauto, hgate, htime, htrack]
            rw [hrw]
            rcases ih slots fb second nd ls with hid | hdue2
            · rw [hid]; exact ⟨hdue, hready⟩
            · exact hdue2

/-- The drop loop either drops nothing (counter and captured listener
unchanged) or drops at least one entry and captures the connected producer
listener. -/
theorem dropLoop_listener_spec (cpl : Option Nat) (ep : Int) (mfn : Nat) :
    ∀ (rest : List BufferItem) (slots : List BufferSlot) (fb : List Nat)
      (front : BufferItem) (nd : Nat) (ls : Option Nat),
      ((dropLoop cpl ep mfn slots fb front rest nd ls).numDropped = nd ∧
       (dropLoop cpl ep mfn slots fb front rest nd ls).listener = ls) ∨
      (nd < (dropLoop cpl ep mfn slots fb front rest nd ls).numDropped ∧
       (dropLoop cpl ep mfn slots fb front rest nd ls).listener = cpl) := by
  intro rest
  induction rest with
  | nil => intro slots fb front nd ls; left; exact ⟨rfl, rfl⟩
  | cons second rest2 ih =>
    intro slots fb front nd ls
    by_cases hauto : front.mIsAutoTimestamp
    · left; simp [dropLoop, hauto]
    · by_cases hgate : mfn ≠ 0 ∧ second.mFrameNumber > mfn
      · left; simp [dropLoop, hauto, hgate]
      · by_cases htime : second.mTimestamp < ep - MAX_REASONABLE_NSEC ∨ second.mTimestamp > ep
        · left; simp [dropLoop, hauto, hgate, htime]
        · by_cases htrack : stillTracking slots front
          · have hrw : dropLoop cpl ep mfn slots fb front (second :: rest2) nd ls =
                dropLoop cpl ep mfn
                  (slots.set front.mSlot
                    { slots.getD front.mSlot emptySlot with mBufferState := BufferState.FREE })
                  (fb ++ [front.mSlot]) second rest2 (nd + 1) cpl := by
              simp [dropLoop, hauto, hgate, htime, htrack]
            rw [hrw]
            rcases ih (slots.set front.mSlot
                { slots.getD front.mSlot emptySlot with mBufferState := BufferState.FREE })
                (fb ++ [front.mSlot]) second (nd + 1) cpl with ⟨h1, h2⟩ | ⟨h1, h2⟩
            · right; rw [h1, h2]; exact ⟨Nat.lt_succ_self nd, rfl⟩
            · right; exact ⟨by omega, h2⟩
          · have hrw : dropLoop cpl ep mfn slots fb front (second :: rest2) nd ls =
                dropLoop cpl ep mfn slots fb second rest2 nd ls := by
              simp [dropLoop, hauto, hgate, htime, htrack]
            rw [hrw]
            exact ih slots fb second nd ls

theorem bufferIsDue_eq_false_iff (d e : Int) :
    bufferIsDue d e = false ↔ ¬(d ≤ e ∨ d > e + MAX_REASONABLE_NSEC) := by
  rw [← bufferIsDue_eq_true_iff]
  cases bufferIsDue d e <;> simp

theorem consumerIsReady_eq_false_iff (mfn fn : Nat) :
    consumerIsReady mfn fn = false ↔ ¬(mfn = 0 ∨ fn ≤ mfn) := by
  rw [← consumerIsReady_eq_true_iff]
  cases consumerIsReady mfn fn <;> simp

/-- The deferral condition of `acquireBuffer`, spelled out in terms of the
front entry's timestamp and frame number. -/
theorem deferCond_iff (t e : Int) (mfn fn : Nat) :
    (!(bufferIsDue t e) || !(consumerIsReady mfn fn)) = true ↔
    (¬(t ≤ e ∨ t > e + MAX_REASONABLE_NSEC) ∨ ¬(mfn = 0 ∨ fn ≤ mfn)) := by
  simp only [Bool.or_eq_true, Bool.not_eq_true']
  rw [bufferIsDue_eq_false_iff, consumerIsReady_eq_false_iff]

/-- Any call to `acquireBuffer` either succeeds or leaves the core state
exactly as it was. -/
theorem acquireBuffer_ok_or_core_unchanged (core : BufferQueueCore) (ep : Int)
    (mfn : Nat) :
    (acquireBuffer core ep mfn).status = Status.NO_ERROR ∨
    (acquireBuffer core ep mfn).core = core := by
  unfold acquireBuffer
  split
  · right; rfl
  · split
    · right; rfl
    · next front0 rest0 hq =>
      split
      · next hep =>
        dsimp only
        split
        · next hcond =>
          right
          rcases dropLoop_eq_or_due core.mConnectedProducerListener ep mfn rest0
              core.mSlots core.mFreeBuffers front0 0 none with hid | ⟨hdue, hready⟩
          · rw [hid]
            dsimp only
            rw [← hq]
          · rw [hdue, hready] at hcond
            simp at hcond
        · left; rfl
      · left; rfl

/-- C1: whenever acquire returns PRESENT_LATER or NO_BUFFER_AVAILABLE, the
whole call leaves the FrameQueue, the slot table and the free-buffer list
unchanged, for every starting state and every `expectedPresent` and
`maxFrameNumber` argument. -/
theorem acquire_error_leaves_state_unchanged (core : BufferQueueCore) (ep : Int)
    (mfn : Nat)
    (h : (acquireBuffer core ep mfn).status = Status.PRESENT_LATER ∨
         (acquireBuffer core ep mfn).status = Status.NO_BUFFER_AVAILABLE) :
    (acquireBuffer core ep mfn).core = core := by
  rcases acquireBuffer_ok_or_core_unchanged core ep mfn with hs | hc
  · rcases h with h | h <;> rw [h] at hs <;> exact absurd hs (by decide)
  · exact hc

/-- Witness for C1: a deferred acquire (front timestamp 1.5 s, expected
present 1 s) leaves the sample core untouched. -/
theorem acquire_error_leaves_state_unchanged_witness :
    (acquireBuffer sampleCoreLater 1000000000 0).core = sampleCoreLater :=
  acquire_error_leaves_state_unchanged sampleCoreLater 1000000000 0
    (Or.inl (by decide))

/-- C4: with a nonzero `expectedPresent`, a non-empty queue and the
acquired-count cap not reached, acquire returns PRESENT_LATER exactly when
the final front entry (after the drop loop) fails `bufferIsDue` or fails
`consumerIsReady`; in particular a front entry whose desired present time
equals `expectedPresent` is accepted, not deferred. -/
theorem acquire_present_later_iff (core : BufferQueueCore) (ep : Int) (mfn : Nat)
    (front0 : BufferItem) (rest0 : List BufferItem)
    (hq : core.mQueue = front0 :: rest0) (hep : ep ≠ 0)
    (hcap : countAcquired core.mSlots < core.mMaxAcquiredBufferCount + 1) :
    let d := dropLoop core.mConnectedProducerListener ep mfn core.mSlots
      core.mFreeBuffers front0 rest0 0 none
    ((acquireBuffer core ep mfn).status = Status.PRESENT_LATER ↔
      (¬(d.front.mTimestamp ≤ ep ∨ d.front.mTimestamp > ep + MAX_REASONABLE_NSEC) ∨
       ¬(mfn = 0 ∨ d.front.mFrameNumber ≤ mfn))) ∧
    (d.front.mTimestamp = ep → (mfn = 0 ∨ d.front.mFrameNumber ≤ mfn) →
      (acquireBuffer core ep mfn).status = Status.NO_ERROR) := by
  intro d
  have hred : acquireBuffer core ep mfn =
      (if !(bufferIsDue d.front.mTimestamp ep) || !(consumerIsReady mfn d.front.mFrameNumber) then
        { status := Status.PRESENT_LATER
          core := { core with mSlots := d.slots, mFreeBuffers := d.freeBuffers
                              mQueue := d.front :: d.rest }
          outBuffer := none
          numDroppedBuffers := d.numDropped, listener := d.listener
          releaseCallbackCount := 0 }
      else
        acquireFront
          { core with mSlots := d.slots, mFreeBuffers := d.freeBuffers
                      mQueue := d.front :: d.rest }
          d.front d.rest d.numDropped d.listener) := by
    unfold acquireBuffer
    rw [if_neg (by omega), hq]
    dsimp only
    rw [if_pos hep]
  constructor
  · by_cases hcond : (!(bufferIsDue d.front.mTimestamp ep) ||
        !(consumerIsReady mfn d.front.mFrameNumber)) = true
    · rw [hred, if_pos hcond]
      exact iff_of_true rfl ((deferCond_iff _ _ _ _).mp hcond)
    · rw [hred, if_neg hcond]
      refine iff_of_false ?_ fun hdefer => hcond ((deferCond_iff _ _ _ _).mpr hdefer)
      simp [acquireFront]
  · intro hts hready
    have hdue : bufferIsDue d.front.mTimestamp ep = true := by
      rw [bufferIsDue_eq_true_iff]; exact Or.inl (le_of_eq hts)
    have hrdy : consumerIsReady mfn d.front.mFrameNumber = true := by
      rw [consumerIsReady_eq_true_iff]; exact hready
    rw [hred, if_neg (by simp [hdue, hrdy])]
    rfl

/-- Witness for C4: the deferred sample (timestamp 1.5 s, expected 1 s)
returns PRESENT_LATER, and an expected present exactly equal to the front
timestamp (1 s) is accepted. -/
theorem acquire_present_later_iff_witness :
    (acquireBuffer sampleCoreLater 1000000000 0).status = Status.PRESENT_LATER ∧
    (acquireBuffer sampleCoreLater 1500000000 0).status = Status.NO_ERROR := by
  constructor
  · exact ((acquire_present_later_iff sampleCoreLater 1000000000 0
      { sampleItem1 with mTimestamp := 1500000000 } [] rfl (by decide)
      (by decide)).1).mpr (by decide)
  · exact (acquire_present_later_iff sampleCoreLater 1500000000 0
      { sampleItem1 with mTimestamp := 1500000000 } [] rfl (by decide)
      (by decide)).2 (by decide) (by decide)

/-- C5: with `expectedPresent = 0`, a non-empty queue and the acquired-count
cap not reached, the front entry is returned and the call succeeds whatever
`maxFrameNumber` is: the frame-number gate is not applied. -/
theorem acquire_expected_zero_ignores_max_frame (core : BufferQueueCore)
    (mfn : Nat) (front0 : BufferItem) (rest0 : List BufferItem)
    (hq : core.mQueue = front0 :: rest0)
    (hcap : countAcquired core.mSlots < core.mMaxAcquiredBufferCount + 1) :
    (acquireBuffer core 0 mfn).status = Status.NO_ERROR ∧
    (acquireBuffer core 0 mfn).outBuffer.map (fun b => b.mSlot) = some front0.mSlot ∧
    (acquireBuffer core 0 mfn).outBuffer.map (fun b => b.mFrameNumber) =
      some front0.mFrameNumber ∧
    (acquireBuffer core 0 mfn).core.mQueue = rest0 := by
  have hred : acquireBuffer core 0 mfn = acquireFront core front0 rest0 0 none := by
    unfold acquireBuffer
    rw [if_neg (by omega), hq]
    dsimp only
    rw [if_neg (by simp)]
  rw [hred]
  refine ⟨rfl, ?_, ?_, rfl⟩ <;>
    · unfold acquireFront
      by_cases hac : front0.mAcquireCalled <;> simp [hac]

/-- Witness for C5: the spec's scenario 4 — a queue whose front has frame
number 5, acquired with `expectedPresent = 0` and `maxFrameNumber = 4`,
succeeds and returns frame 5. -/
theorem acquire_expected_zero_ignores_max_frame_witness :
    (acquireBuffer sampleCoreFrame5 0 4).status = Status.NO_ERROR ∧
    (acquireBuffer sampleCoreFrame5 0 4).outBuffer.map (fun b => b.mSlot) = some 3 ∧
    (acquireBuffer sampleCoreFrame5 0 4).outBuffer.map (fun b => b.mFrameNumber) =
      some 5 ∧
    (acquireBuffer sampleCoreFrame5 0 4).core.mQueue = [] :=
  acquire_expected_zero_ignores_max_frame sampleCoreFrame5 4
    { sampleItem1 with mFrameNumber := 5 } [] rfl (by decide)

/-- C7: with a producer listener connected, every call to acquire issues
exactly `numDroppedBuffers` deferred `onBufferReleased` callbacks (one per
entry the drop loop dropped), whatever status the call returns, and any
nonzero drop count was captured from the connected producer listener. -/
theorem acquire_callbacks_eq_dropped (core : BufferQueueCore) (ep : Int)
    (mfn : Nat) (l : Nat) (hl : core.mConnectedProducerListener = some l) :
    (acquireBuffer core ep mfn).releaseCallbackCount =
      (acquireBuffer core ep mfn).numDroppedBuffers ∧
    (0 < (acquireBuffer core ep mfn).numDroppedBuffers →
      (acquireBuffer core ep mfn).listener = some l) := by
  unfold acquireBuffer
  split
  · exact ⟨rfl, fun h => absurd h (lt_irrefl 0)⟩
  · split
    · exact ⟨rfl, fun h => absurd h (lt_irrefl 0)⟩
    · next front0 rest0 hq =>
      split
      · next hep =>
        dsimp only
        rcases dropLoop_listener_spec core.mConnectedProducerListener ep mfn rest0
            core.mSlots core.mFreeBuffers front0 0 none with ⟨hnd, hls⟩ | ⟨hnd, hls⟩
        · split
          · refine ⟨?_, ?_⟩ <;> dsimp only
            · exact hnd.symm
            · intro h; rw [hnd] at h; exact absurd h (lt_irrefl 0)
          · simp only [acquireFront]
            refine ⟨?_, ?_⟩ <;> dsimp only
            · rw [hnd, hls]; rfl
            · intro h; rw [hnd] at h; exact absurd h (lt_irrefl 0)
        · have hdue : bufferIsDue (dropLoop core.mConnectedProducerListener ep mfn
              core.mSlots core.mFreeBuffers front0 rest0 0 none).front.mTimestamp ep = true ∧
              consumerIsReady mfn (dropLoop core.mConnectedProducerListener ep mfn
                core.mSlots core.mFreeBuffers front0 rest0 0 none).front.mFrameNumber = true := by
            rcases dropLoop_eq_or_due core.mConnectedProducerListener ep mfn rest0
                core.mSlots core.mFreeBuffers front0 0 none with hid | hdue
            · rw [hid] at hnd; exact absurd hnd (lt_irrefl 0)
            · exact hdue
          rw [if_neg (by simp [hdue.1, hdue.2])]
          simp only [acquireFront]
          refine ⟨?_, ?_⟩ <;> dsimp only
          · rw [hls, hl]; rfl
          · exact fun _ => hls.trans hl
      · simp only [acquireFront]
        exact ⟨rfl, fun h => absurd h (lt_irrefl 0)⟩

/-- Witness for C7: the drop scenario (two queued frames, the second timely)
fires exactly one deferred callback, matching its single drop, captured from
the connected producer listener. -/
theorem acquire_callbacks_eq_dropped_witness :
    (acquireBuffer sampleCoreTwoQueued 2000000000 0).releaseCallbackCount =
      (acquireBuffer sampleCoreTwoQueued 2000000000 0).numDroppedBuffers ∧
    (0 < (acquireBuffer sampleCoreTwoQueued 2000000000 0).numDroppedBuffers →
      (acquireBuffer sampleCoreTwoQueued 2000000000 0).listener = some 7) :=
  acquire_callbacks_eq_dropped sampleCoreTwoQueued 2000000000 0 7 rfl

/-- C10: when the success path of acquire is reached with a front entry whose
slot is no longer tracked, the entry is still copied out and popped and the
call returns OK, while the slot table is left completely unchanged: no slot
becomes ACQUIRED, no `mAcquireCalled` flag is set, and the acquired-slot
count stays the same. -/
theorem acquire_untracked_front_no_slot_change :
    (∀ (core : BufferQueueCore) (front : BufferItem) (rest : List BufferItem)
       (nd : Nat) (ls : Option Nat),
      stillTracking core.mSlots front = false →
      acquireFront core front rest nd ls =
        { status := Status.NO_ERROR
          core := { core with mQueue := rest }
          outBuffer := some (if front.mAcquireCalled then
            { front with mGraphicBuffer := none } else front)
          numDroppedBuffers := nd
          listener := ls
          releaseCallbackCount := if ls.isSome then nd else 0 }) ∧
    (∀ (core : BufferQueueCore) (mfn : Nat) (front : BufferItem)
       (rest : List BufferItem),
      core.mQueue = front :: rest →
      stillTracking core.mSlots front = false →
      countAcquired core.mSlots < core.mMaxAcquiredBufferCount + 1 →
      (acquireBuffer core 0 mfn).status = Status.NO_ERROR ∧
      (acquireBuffer core 0 mfn).core.mSlots = core.mSlots ∧
      countAcquired (acquireBuffer core 0 mfn).core.mSlots =
        countAcquired core.mSlots ∧
      (acquireBuffer core 0 mfn).core.mQueue = rest ∧
      (acquireBuffer core 0 mfn).outBuffer = some (if front.mAcquireCalled then
        { front with mGraphicBuffer := none } else front)) := by
  have hfront : ∀ (core : BufferQueueCore) (front : BufferItem)
      (rest : List BufferItem) (nd : Nat) (ls : Option Nat),
      stillTracking core.mSlots front = false →
      acquireFront core front rest nd ls =
        { status := Status.NO_ERROR
          core := { core with mQueue := rest }
          outBuffer := some (if front.mAcquireCalled then
            { front with mGraphicBuffer := none } else front)
          numDroppedBuffers := nd
          listener := ls
          releaseCallbackCount := if ls.isSome then nd else 0 } := by
    intro core front rest nd ls htrack
    unfold acquireFront
    rw [htrack]
    rfl
  refine ⟨hfront, ?_⟩
  intro core mfn front rest hq htrack hcap
  have hred : acquireBuffer core 0 mfn = acquireFront core front rest 0 none := by
    unfold acquireBuffer
    rw [if_neg (by omega), hq]
    dsimp only
    rw [if_neg (by simp)]
  rw [hred, hfront core front rest 0 none htrack]
  exact ⟨rfl, rfl, rfl, rfl, rfl⟩

/-- Witness for C10: acquiring from the sample core whose queued front
references a buffer no longer resident in slot 3 succeeds without touching
the slot table. -/
theorem acquire_untracked_front_no_slot_change_witness :
    (acquireBuffer sampleCoreUntracked 0 0).status = Status.NO_ERROR ∧
    (acquireBuffer sampleCoreUntracked 0 0).core.mSlots = sampleCoreUntracked.mSlots ∧
    countAcquired (acquireBuffer sampleCoreUntracked 0 0).core.mSlots =
      countAcquired sampleCoreUntracked.mSlots ∧
    (acquireBuffer sampleCoreUntracked 0 0).core.mQueue = [] ∧
    (acquireBuffer sampleCoreUntracked 0 0).outBuffer = some sampleItem1 := by
  have h := acquire_untracked_front_no_slot_change.2 sampleCoreUntracked 0
    sampleItem1 [] rfl (by decide) (by decide)
  exact ⟨h.1, h.2.1, h.2.2.1, h.2.2.2.1, by rw [h.2.2.2.2]; decide⟩

/-- C3: one iteration of the drop loop drops the front entry exactly when the
queue holds a second entry, the front is not auto-timestamped, the second
entry's frame number is acceptable (`maxFrameNumber` zero or within it), and
the second entry's desired present time lies within
`[expectedPresent − 10⁹, expectedPresent]`; a drop of a still-tracked front
marks its slot FREE and appends it to `mFreeBuffers` before erasing the
front and repeating, an untracked front is erased without slot changes, and
an auto-timestamped front is never dropped, regardless of timing. -/
theorem acquire_drop_loop_rules (cpl : Option Nat) (ep : Int) (mfn : Nat)
    (slots : List BufferSlot) (fb : List Nat) (front second : BufferItem)
    (rest2 : List BufferItem) (nd : Nat) (ls : Option Nat) :
    (front.mIsAutoTimestamp = false →
      (mfn = 0 ∨ second.mFrameNumber ≤ mfn) →
      ep - MAX_REASONABLE_NSEC ≤ second.mTimestamp →
      second.mTimestamp ≤ ep →
      (stillTracking slots front = true →
        dropLoop cpl ep mfn slots fb front (second :: rest2) nd ls =
          dropLoop cpl ep mfn
            (slots.set front.mSlot
              { slots.getD front.mSlot emptySlot with mBufferState := BufferState.FREE })
            (fb ++ [front.mSlot]) second rest2 (nd + 1) cpl) ∧
      (stillTracking slots front = false →
        dropLoop cpl ep mfn slots fb front (second :: rest2) nd ls =
          dropLoop cpl ep mfn slots fb second rest2 nd ls)) ∧
    (front.mIsAutoTimestamp = true →
      dropLoop cpl ep mfn slots fb front (second :: rest2) nd ls =
        ⟨slots, fb, front, second :: rest2, nd, ls⟩) ∧
    (front.mIsAutoTimestamp = false →
      ((mfn ≠ 0 ∧ mfn < second.mFrameNumber) ∨
        second.mTimestamp < ep - MAX_REASONABLE_NSEC ∨ ep < second.mTimestamp) →
      dropLoop cpl ep mfn slots fb front (second :: rest2) nd ls =
        ⟨slots, fb, front, second :: rest2, nd, ls⟩) := by
  refine ⟨?_, ?_, ?_⟩
  · intro hauto hgate hlo hhi
    have hgate2 : ¬(mfn ≠ 0 ∧ second.mFrameNumber > mfn) := by
      rcases hgate with h0 | hle
      · intro hc; exact hc.1 h0
      · intro hc; omega
    have htime : ¬(second.mTimestamp < ep - MAX_REASONABLE_NSEC ∨
        second.mTimestamp > ep) := by
      push_neg
      exact ⟨hlo, hhi⟩
    constructor
    · intro htrack
      simp [dropLoop, hauto, hgate2, htime, htrack]
    · intro htrack
      simp [dropLoop, hauto, hgate2, htime, htrack]
  · intro hauto
    simp [dropLoop, hauto]
  · intro hauto hstop
    rcases hstop with ⟨h0, hgt⟩ | htime
    · have hgate2 : mfn ≠ 0 ∧ second.mFrameNumber > mfn := ⟨h0, by omega⟩
      simp [dropLoop, hauto, hgate2]
    · have htime2 : second.mTimestamp < ep - MAX_REASONABLE_NSEC ∨
          second.mTimestamp > ep := by omega
      by_cases hgate2 : mfn ≠ 0 ∧ second.mFrameNumber > mfn
      · simp [dropLoop, hauto, hgate2]
      · simp [dropLoop, hauto, hgate2, htime2]

/-- Witness for C3: the spec's drop scenario — front at 1 s, second at 2 s,
expected present 2 s — drops the tracked front, freeing slot 3 into the
free-buffer list and continuing the loop on the second entry. -/
theorem acquire_drop_loop_rules_witness :
    dropLoop (some 7) 2000000000 0 sampleCoreTwoQueued.mSlots [] sampleItem1
      [sampleItem2] 0 none =
    dropLoop (some 7) 2000000000 0
      (sampleCoreTwoQueued.mSlots.set 3
        { sampleCoreTwoQueued.mSlots.getD 3 emptySlot with
            mBufferState := BufferState.FREE })
      [3] sampleItem2 [] 1 (some 7) :=
  ((acquire_drop_loop_rules (some 7) 2000000000 0 sampleCoreTwoQueued.mSlots []
      sampleItem1 sampleItem2 [] 0 none).1 (by decide) (Or.inl rfl) (by decide)
      (by decide)).1 (by decide)

/-- C6: releaseBuffer with an in-range slot and a non-null fence proceeds by
cases, in order: frame-number mismatch returns STALE_BUFFER_SLOT with no
state change; a slot still referenced by a FrameQueue entry returns
BAD_VALUE with no state change; an ACQUIRED slot stores the release fence
and EGL display/fence, becomes FREE, is appended to the free-buffer list and
returns OK (with one deferred producer callback when a listener is
connected); otherwise `mNeedsCleanupOnRelease` is cleared and
STALE_BUFFER_SLOT returned, or BAD_VALUE when it was already clear. -/
theorem releaseBuffer_cases (core : BufferQueueCore) (slot frameNumber : Nat)
    (releaseFence : FenceRef) (eglDisplay eglFence : Nat)
    (hslot : slot < NUM_BUFFER_SLOTS) (hfence : releaseFence ≠ FenceRef.null) :
    let sl := core.mSlots.getD slot emptySlot
    (frameNumber ≠ sl.mFrameNumber →
      releaseBuffer core slot frameNumber releaseFence eglDisplay eglFence =
        (Status.STALE_BUFFER_SLOT, core, 0)) ∧
    (frameNumber = sl.mFrameNumber →
      (∃ q ∈ core.mQueue, q.mSlot = slot) →
      releaseBuffer core slot frameNumber releaseFence eglDisplay eglFence =
        (Status.BAD_VALUE, core, 0)) ∧
    (frameNumber = sl.mFrameNumber →
      (∀ q ∈ core.mQueue, q.mSlot ≠ slot) →
      sl.mBufferState = BufferState.ACQUIRED →
      releaseBuffer core slot frameNumber releaseFence eglDisplay eglFence =
        (Status.NO_ERROR,
         { core with
             mSlots := core.mSlots.set slot
               { sl with
                   mEglDisplay := eglDisplay
                   mEglFence := eglFence
                   mFence := releaseFence
                   mBufferState := BufferState.FREE }
             mFreeBuffers := core.mFreeBuffers ++ [slot] },
         if core.mConnectedProducerListener.isSome then 1 else 0)) ∧
    (frameNumber = sl.mFrameNumber →
      (∀ q ∈ core.mQueue, q.mSlot ≠ slot) →
      sl.mBufferState ≠ BufferState.ACQUIRED →
      sl.mNeedsCleanupOnRelease = true →
      releaseBuffer core slot frameNumber releaseFence eglDisplay eglFence =
        (Status.STALE_BUFFER_SLOT,
         { core with
             mSlots := core.mSlots.set slot { sl with mNeedsCleanupOnRelease := false } },
         0)) ∧
    (frameNumber = sl.mFrameNumber →
      (∀ q ∈ core.mQueue, q.mSlot ≠ slot) →
      sl.mBufferState ≠ BufferState.ACQUIRED →
      sl.mNeedsCleanupOnRelease = false →
      releaseBuffer core slot frameNumber releaseFence eglDisplay eglFence =
        (Status.BAD_VALUE, core, 0)) := by
  intro sl
  have hrange : ¬(NUM_BUFFER_SLOTS ≤ slot ∨ releaseFence = FenceRef.null) := by
    push_neg
    exact ⟨by omega, hfence⟩
  have hanyT : ∀ (h2 : ∃ q ∈ core.mQueue, q.mSlot = slot),
      (core.mQueue.any fun current => current.mSlot == slot) = true := by
    rintro ⟨q, hq, hqs⟩
    exact List.any_eq_true.mpr ⟨q, hq, by simp [hqs]⟩
  have hanyF : ∀ (h2 : ∀ q ∈ core.mQueue, q.mSlot ≠ slot),
      ¬((core.mQueue.any fun current => current.mSlot == slot) = true) := by
    intro h2 hc
    rcases List.any_eq_true.mp hc with ⟨q, hq, hbeq⟩
    exact h2 q hq (by simpa using hbeq)
  refine ⟨?_, ?_, ?_, ?_, ?_⟩
  · intro h1
    unfold releaseBuffer
    rw [if_neg hrange]
    dsimp only
    rw [if_pos h1]
  · intro h1 h2
    unfold releaseBuffer
    rw [if_neg hrange]
    dsimp only
    rw [if_neg (not_not_intro h1), if_pos (hanyT h2)]
  · intro h1 h2 h3
    unfold releaseBuffer
    rw [if_neg hrange]
    dsimp only
    rw [if_neg (not_not_intro h1), if_neg (hanyF h2), if_pos h3]
  · intro h1 h2 h3 h4
    unfold releaseBuffer
    rw [if_neg hrange]
    dsimp only
    rw [if_neg (not_not_intro h1), if_neg (hanyF h2), if_neg h3, if_pos h4]
  · intro h1 h2 h3 h4
    unfold releaseBuffer
    rw [if_neg hrange]
    dsimp only
    rw [if_neg (not_not_intro h1), if_neg (hanyF h2), if_neg h3,
      if_neg (fun hc => Bool.false_ne_true (h4.symm.trans hc))]

/-- Witness for C6: releasing slot 3 with a stale frame number (2 instead of
1) returns STALE_BUFFER_SLOT and leaves the sample core untouched. -/
theorem releaseBuffer_cases_witness :
    releaseBuffer sampleCoreAcquired 3 2 (FenceRef.fence 5) 0 0 =
      (Status.STALE_BUFFER_SLOT, sampleCoreAcquired, 0) :=
  (releaseBuffer_cases sampleCoreAcquired 3 2 (FenceRef.fence 5) 0 0
    (by decide) (by decide)).1 (by decide)

/-- Counterexample for C9 as stated: at the acquired-count cap, attach with a
mismatched generation number returns INVALID_OPERATION rather than
BAD_VALUE — the cap check precedes the generation check. -/
theorem attachBuffer_generation_counterexample :
    (7 : Nat) ≠ sampleCoreAtCap.mGenerationNumber ∧
    (attachBuffer sampleCoreAtCap true (some ⟨9, 7⟩)).1 = Status.INVALID_OPERATION ∧
    (attachBuffer sampleCoreAtCap true (some ⟨9, 7⟩)).1 ≠ Status.BAD_VALUE := by
  refine ⟨by decide, by decide, by decide⟩

/-- C9 (amended): attach with a non-null out-slot and a buffer whose
generation number differs from the queue's returns BAD_VALUE with no state
change provided the acquired-count cap has not been reached; when the cap is
reached the cap check fires first and attach returns INVALID_OPERATION,
also with no state change. -/
theorem attachBuffer_generation_mismatch (core : BufferQueueCore)
    (buf : GraphicBuffer) :
    (countAcquired core.mSlots < core.mMaxAcquiredBufferCount + 1 →
      buf.generationNumber ≠ core.mGenerationNumber →
      attachBuffer core true (some buf) = (Status.BAD_VALUE, core, none)) ∧
    (core.mMaxAcquiredBufferCount + 1 ≤ countAcquired core.mSlots →
      attachBuffer core true (some buf) = (Status.INVALID_OPERATION, core, none)) := by
  constructor
  · intro hcap hgen
    unfold attachBuffer
    rw [if_neg (by decide)]
    dsimp only
    rw [if_neg (by omega), if_pos hgen]
  · intro hcap
    unfold attachBuffer
    rw [if_neg (by decide)]
    dsimp only
    rw [if_pos hcap]

/-- Witness for C9: on the sample base core (generation 0, cap not reached),
attaching a buffer of generation 7 returns BAD_VALUE with no state change. -/
theorem attachBuffer_generation_mismatch_witness :
    attachBuffer sampleBaseCore true (some ⟨9, 7⟩) =
      (Status.BAD_VALUE, sampleBaseCore, none) :=
  (attachBuffer_generation_mismatch sampleBaseCore ⟨9, 7⟩).1 (by decide) (by decide)

theorem setAbandoned_setAbandoned (core : BufferQueueCore) (b1 b2 : Bool) :
    setAbandoned (setAbandoned core b1) b2 = setAbandoned core b2 := by
  cases core; rfl

theorem setAbandoned_eq_of (core : BufferQueueCore) (b : Bool)
    (h : core.mIsAbandoned = b) : setAbandoned core b = core := by
  cases core
  subst h
  rfl

theorem acquireFront_ignores_abandoned (core : BufferQueueCore) (b : Bool)
    (front : BufferItem) (rest : List BufferItem) (nd : Nat) (ls : Option Nat) :
    acquireFront (setAbandoned core b) front rest nd ls =
      { acquireFront core front rest nd ls with
          core := setAbandoned (acquireFront core front rest nd ls).core b } := by
  cases core; rfl

theorem acquireBuffer_ignores_abandoned (core : BufferQueueCore) (b : Bool)
    (ep : Int) (mfn : Nat) :
    acquireBuffer (setAbandoned core b) ep mfn =
      { acquireBuffer core ep mfn with
          core := setAbandoned (acquireBuffer core ep mfn).core b } := by
  cases core with
  | mk s q fs fb mx ab cl cpl gen api uab app w hgt fmt ds ub th nm =>
    unfold setAbandoned acquireBuffer
    dsimp only
    by_cases h1 : mx + 1 ≤ countAcquired s
    · rw [if_pos h1, if_pos h1]
    · rw [if_neg h1, if_neg h1]
      cases q with
      | nil => rfl
      | cons f0 r0 =>
        dsimp only
        by_cases h2 : ep ≠ 0
        · rw [if_pos h2, if_pos h2]
          by_cases h3 : (!(bufferIsDue
              (dropLoop cpl ep mfn s fb f0 r0 0 none).front.mTimestamp ep) ||
              !(consumerIsReady mfn
                (dropLoop cpl ep mfn s fb f0 r0 0 none).front.mFrameNumber)) = true
          · rw [if_pos h3, if_pos h3]
          · rw [if_neg h3, if_neg h3]
            rfl
        · rw [if_neg h2, if_neg h2]
          rfl

theorem releaseBuffer_ignores_abandoned (core : BufferQueueCore) (b : Bool)
    (slot frameNumber : Nat) (releaseFence : FenceRef) (eglDisplay eglFence : Nat) :
    releaseBuffer (setAbandoned core b) slot frameNumber releaseFence eglDisplay eglFence =
      ((releaseBuffer core slot frameNumber releaseFence eglDisplay eglFence).1,
       setAbandoned (releaseBuffer core slot frameNumber releaseFence eglDisplay eglFence).2.1 b,
       (releaseBuffer core slot frameNumber releaseFence eglDisplay eglFence).2.2) := by
  cases core with
  | mk s q fs fb mx ab cl cpl gen api uab app w hgt fmt ds ub th nm =>
    unfold setAbandoned releaseBuffer
    dsimp only
    by_cases h1 : NUM_BUFFER_SLOTS ≤ slot ∨ releaseFence = FenceRef.null
    · rw [if_pos h1, if_pos h1]
    · rw [if_neg h1, if_neg h1]
      by_cases h2 : frameNumber ≠ (s.getD slot emptySlot).mFrameNumber
      · rw [if_pos h2, if_pos h2]
      · rw [if_neg h2, if_neg h2]
        by_cases h3 : (q.any fun current => current.mSlot == slot) = true
        · rw [if_pos h3, if_pos h3]
        · rw [if_neg h3, if_neg h3]
          by_cases h4 : (s.getD slot emptySlot).mBufferState = BufferState.ACQUIRED
          · rw [if_pos h4, if_pos h4]
          · rw [if_neg h4, if_neg h4]
            by_cases h5 : (s.getD slot emptySlot).mNeedsCleanupOnRelease = true
            · rw [if_pos h5, if_pos h5]
            · rw [if_neg h5, if_neg h5]

theorem attachBuffer_ignores_abandoned (core : BufferQueueCore) (b : Bool)
    (outSlotProvided : Bool) (buffer : Option GraphicBuffer) :
    attachBuffer (setAbandoned core b) outSlotProvided buffer =
      ((attachBuffer core outSlotProvided buffer).1,
       setAbandoned (attachBuffer core outSlotProvided buffer).2.1 b,
       (attachBuffer core outSlotProvided buffer).2.2) := by
  cases core with
  | mk s q fs fb mx ab cl cpl gen api uab app w hgt fmt ds ub th nm =>
    unfold setAbandoned attachBuffer
    dsimp only
    by_cases h1 : (!outSlotProvided) = true
    · rw [if_pos h1, if_pos h1]
    · rw [if_neg h1, if_neg h1]
      cases buffer with
      | none => rfl
      | some buf =>
        dsimp only
        by_cases h2 : mx + 1 ≤ countAcquired s
        · rw [if_pos h2, if_pos h2]
        · rw [if_neg h2, if_neg h2]
          by_cases h3 : buf.generationNumber ≠ gen
          · rw [if_pos h3, if_pos h3]
          · rw [if_neg h3, if_neg h3]
            cases fs with
            | cons s0 restSlots => rfl
            | nil =>
              cases fb with
              | nil => rfl
              | cons f0 restBuffers => rfl

theorem setDefaultBufferSize_ignores_abandoned (core : BufferQueueCore) (b : Bool)
    (width height : Nat) :
    setDefaultBufferSize (setAbandoned core b) width height =
      ((setDefaultBufferSize core width height).1,
       setAbandoned (setDefaultBufferSize core width height).2 b) := by
  cases core
  unfold setAbandoned setDefaultBufferSize
  dsimp only
  by_cases h1 : width = 0 ∨ height = 0
  · rw [if_pos h1, if_pos h1]
  · rw [if_neg h1, if_neg h1]

theorem disableAsyncBuffer_ignores_abandoned (core : BufferQueueCore) (b : Bool) :
    disableAsyncBuffer (setAbandoned core b) =
      ((disableAsyncBuffer core).1, setAbandoned (disableAsyncBuffer core).2 b) := by
  cases core with
  | mk s q fs fb mx ab cl cpl gen api uab app w hgt fmt ds ub th nm =>
    unfold setAbandoned disableAsyncBuffer
    dsimp only
    by_cases h1 : cl.isSome = true
    · rw [if_pos h1, if_pos h1]
    · rw [if_neg h1, if_neg h1]

theorem setMaxAcquiredBufferCount_ignores_abandoned (core : BufferQueueCore)
    (b : Bool) (maxAcquiredBuffers : Nat) :
    setMaxAcquiredBufferCount (setAbandoned core b) maxAcquiredBuffers =
      ((setMaxAcquiredBufferCount core maxAcquiredBuffers).1,
       setAbandoned (setMaxAcquiredBufferCount core maxAcquiredBuffers).2 b) := by
  cases core with
  | mk s q fs fb mx ab cl cpl gen api uab app w hgt fmt ds ub th nm =>
    unfold setAbandoned setMaxAcquiredBufferCount
    dsimp only
    by_cases h1 : maxAcquiredBuffers < 1 ∨ maxAcquiredBuffers > MAX_MAX_ACQUIRED_BUFFERS
    · rw [if_pos h1, if_pos h1]
    · rw [if_neg h1, if_neg h1]
      by_cases h2 : api ≠ NO_CONNECTED_API
      · rw [if_pos h2, if_pos h2]
      · rw [if_neg h2, if_neg h2]

theorem setConsumerName_ignores_abandoned (core : BufferQueueCore) (b : Bool)
    (name : Nat) :
    setConsumerName (setAbandoned core b) name =
      setAbandoned (setConsumerName core name) b := by
  cases core; rfl

theorem setDefaultBufferFormat_ignores_abandoned (core : BufferQueueCore)
    (b : Bool) (defaultFormat : Nat) :
    setDefaultBufferFormat (setAbandoned core b) defaultFormat =
      ((setDefaultBufferFormat core defaultFormat).1,
       setAbandoned (setDefaultBufferFormat core defaultFormat).2 b) := by
  cases core; rfl

theorem setDefaultBufferDataSpace_ignores_abandoned (core : BufferQueueCore)
    (b : Bool) (defaultDataSpace : Nat) :
    setDefaultBufferDataSpace (setAbandoned core b) defaultDataSpace =
      ((setDefaultBufferDataSpace core defaultDataSpace).1,
       setAbandoned (setDefaultBufferDataSpace core defaultDataSpace).2 b) := by
  cases core; rfl

theorem setConsumerUsageBits_ignores_abandoned (core : BufferQueueCore)
    (b : Bool) (usage : Nat) :
    setConsumerUsageBits (setAbandoned core b) usage =
      ((setConsumerUsageBits core usage).1,
       setAbandoned (setConsumerUsageBits core usage).2 b) := by
  cases core; rfl

theorem setTransformHint_ignores_abandoned (core : BufferQueueCore) (b : Bool)
    (hint : Nat) :
    setTransformHint (setAbandoned core b) hint =
      ((setTransformHint core hint).1,
       setAbandoned (setTransformHint core hint).2 b) := by
  cases core; rfl

/-- Counterexample for C2 as stated: on an abandoned core, acquire returns
its normal empty-queue answer NO_BUFFER_AVAILABLE, not NOT_INITIALIZED — the
acquire path never consults the abandoned flag. -/
theorem abandoned_acquire_counterexample :
    sampleCoreAbandoned.mIsAbandoned = true ∧
    (acquireBuffer sampleCoreAbandoned 0 0).status = Status.NO_BUFFER_AVAILABLE ∧
    (acquireBuffer sampleCoreAbandoned 0 0).status ≠ Status.NO_INIT := by
  refine ⟨rfl, by decide, by decide⟩

/-- C2 (amended): once the abandoned flag is set (consumer disconnect sets
it), only detach, consumer connect and get_released_buffers observe it and
fail with NOT_INITIALIZED (`NO_INIT`); acquire, release, attach and the
configuration setters never consult the flag and behave exactly as they
would on the same state with the flag cleared. -/
theorem abandoned_gating_asymmetry (core : BufferQueueCore)
    (h : core.mIsAbandoned = true) :
    (∀ slot, (detachBuffer core slot).1 = Status.NO_INIT) ∧
    (∀ l capp, (connect core (some l) capp).1 = Status.NO_INIT) ∧
    (getReleasedBuffers core true).1 = Status.NO_INIT ∧
    (∀ ep mfn, acquireBuffer core ep mfn =
      { acquireBuffer (setAbandoned core false) ep mfn with
          core := setAbandoned (acquireBuffer (setAbandoned core false) ep mfn).core true }) ∧
    (∀ slot fn fence d ef, releaseBuffer core slot fn fence d ef =
      ((releaseBuffer (setAbandoned core false) slot fn fence d ef).1,
       setAbandoned (releaseBuffer (setAbandoned core false) slot fn fence d ef).2.1 true,
       (releaseBuffer (setAbandoned core false) slot fn fence d ef).2.2)) ∧
    (∀ osp buffer, attachBuffer core osp buffer =
      ((attachBuffer (setAbandoned core false) osp buffer).1,
       setAbandoned (attachBuffer (setAbandoned core false) osp buffer).2.1 true,
       (attachBuffer (setAbandoned core false) osp buffer).2.2)) ∧
    (∀ w hgt, setDefaultBufferSize core w hgt =
      ((setDefaultBufferSize (setAbandoned core false) w hgt).1,
       setAbandoned (setDefaultBufferSize (setAbandoned core false) w hgt).2 true)) ∧
    (disableAsyncBuffer core =
      ((disableAsyncBuffer (setAbandoned core false)).1,
       setAbandoned (disableAsyncBuffer (setAbandoned core false)).2 true)) ∧
    (∀ m, setMaxAcquiredBufferCount core m =
      ((setMaxAcquiredBufferCount (setAbandoned core false) m).1,
       setAbandoned (setMaxAcquiredBufferCount (setAbandoned core false) m).2 true)) ∧
    (∀ n, setConsumerName core n =
      setAbandoned (setConsumerName (setAbandoned core false) n) true) ∧
    (∀ f, setDefaultBufferFormat core f =
      ((setDefaultBufferFormat (setAbandoned core false) f).1,
       setAbandoned (setDefaultBufferFormat (setAbandoned core false) f).2 true)) ∧
    (∀ d, setDefaultBufferDataSpace core d =
      ((setDefaultBufferDataSpace (setAbandoned core false) d).1,
       setAbandoned (setDefaultBufferDataSpace (setAbandoned core false) d).2 true)) ∧
    (∀ u, setConsumerUsageBits core u =
      ((setConsumerUsageBits (setAbandoned core false) u).1,
       setAbandoned (setConsumerUsageBits (setAbandoned core false) u).2 true)) ∧
    (∀ t, setTransformHint core t =
      ((setTransformHint (setAbandoned core false) t).1,
       setAbandoned (setTransformHint (setAbandoned core false) t).2 true)) := by
  have hself : setAbandoned (setAbandoned core false) true = core := by
    rw [setAbandoned_setAbandoned]
    exact setAbandoned_eq_of core true h
  refine ⟨?_, ?_, ?_, ?_, ?_, ?_, ?_, ?_, ?_, ?_, ?_, ?_, ?_, ?_⟩
  · intro slot
    unfold detachBuffer
    rw [if_pos h]
  · intro l capp
    unfold connect
    dsimp only
    rw [if_pos h]
  · unfold getReleasedBuffers
    rw [if_neg (by decide), if_pos h]
  · intro ep mfn
    have := acquireBuffer_ignores_abandoned (setAbandoned core false) true ep mfn
    rw [hself] at this
    exact this
  · intro slot fn fence d ef
    have := releaseBuffer_ignores_abandoned (setAbandoned core false) true slot fn fence d ef
    rw [hself] at this
    exact this
  · intro osp buffer
    have := attachBuffer_ignores_abandoned (setAbandoned core false) true osp buffer
    rw [hself] at this
    exact this
  · intro w hgt
    have := setDefaultBufferSize_ignores_abandoned (setAbandoned core false) true w hgt
    rw [hself] at this
    exact this
  · have := disableAsyncBuffer_ignores_abandoned (setAbandoned core false) true
    rw [hself] at this
    exact this
  · intro m
    have := setMaxAcquiredBufferCount_ignores_abandoned (setAbandoned core false) true m
    rw [hself] at this
    exact this
  · intro n
    have := setConsumerName_ignores_abandoned (setAbandoned core false) true n
    rw [hself] at this
    exact this
  · intro f
    have := setDefaultBufferFormat_ignores_abandoned (setAbandoned core false) true f
    rw [hself] at this
    exact this
  · intro d
    have := setDefaultBufferDataSpace_ignores_abandoned (setAbandoned core false) true d
    rw [hself] at this
    exact this
  · intro u
    have := setConsumerUsageBits_ignores_abandoned (setAbandoned core false) true u
    rw [hself] at this
    exact this
  · intro t
    have := setTransformHint_ignores_abandoned (setAbandoned core false) true t
    rw [hself] at this
    exact this

/-- Witness for C2: on the abandoned sample core, detach and the
released-buffers query fail with NO_INIT while acquire still answers
NO_BUFFER_AVAILABLE computed on the flag-cleared state. -/
theorem abandoned_gating_asymmetry_witness :
    (detachBuffer sampleCoreAbandoned 0).1 = Status.NO_INIT ∧
    (getReleasedBuffers sampleCoreAbandoned true).1 = Status.NO_INIT ∧
    acquireBuffer sampleCoreAbandoned 0 0 =
      { acquireBuffer (setAbandoned sampleCoreAbandoned false) 0 0 with
          core := setAbandoned
            (acquireBuffer (setAbandoned sampleCoreAbandoned false) 0 0).core true } := by
  have h := abandoned_gating_asymmetry sampleCoreAbandoned rfl
  exact ⟨h.1 0, h.2.2.1, h.2.2.2.1 0 0⟩

/-- The ordering wait loop exits exactly when the incoming frame number is
the in-order successor, no matter how many timed-out waits have elapsed. -/
theorem orderingWaitExits_eq (lastReceived frameNumber waits : Nat) :
    orderingWaitExits lastReceived frameNumber waits =
      (frameNumber == lastReceived + 1) := by
  induction waits with
  | zero => rfl
  | succ w ih =>
    unfold orderingWaitExits
    by_cases hb : (frameNumber == lastReceived + 1) = true
    · simp [hb]
    · simp [hb, ih]

/-- Counterexample for C8 as stated: an out-of-order item (frame 3 when frame
2 is expected, and not the reset frame 1) is still not appended after a
timed-out 500 ms wait — the handler loops back into the wait instead of
proceeding. -/
theorem frame_wait_timeout_counterexample :
    sampleLateItem.mFrameNumber ≠ sampleLayer.mLastFrameNumberReceived + 1 ∧
    sampleLateItem.mFrameNumber ≠ 1 ∧
    onFrameAvailableNoPredecessor sampleLayer sampleLateItem 1 = none ∧
    onFrameReplacedNoPredecessor sampleLayer sampleLateItem 1 = none := by
  refine ⟨by decide, by decide, by decide, by decide⟩

/-- C8 (amended): when the incoming frame number is not the in-order
successor (after the frame-1 reset in on_frame_available), the notification
handler waits on the layer's queue-item condition in 500 ms intervals,
logging each timeout, and never proceeds on its own: if the predecessor
notification never arrives the item is never appended to the shadow queue
and `mQueuedFrames` is never incremented, however many timed waits elapse.
An in-order item is appended (and the counter incremented) immediately. -/
theorem frame_wait_blocks_until_in_order (layer : LayerState) (item : BufferItem)
    (waits : Nat) :
    (item.mFrameNumber ≠
        (if item.mFrameNumber = 1 then 0 else layer.mLastFrameNumberReceived) + 1 →
      onFrameAvailableNoPredecessor layer item waits = none) ∧
    (item.mFrameNumber =
        (if item.mFrameNumber = 1 then 0 else layer.mLastFrameNumberReceived) + 1 →
      onFrameAvailableNoPredecessor layer item waits =
        some { mLastFrameNumberReceived := item.mFrameNumber
               mQueueItems := layer.mQueueItems ++ [item]
               mQueuedFrames := layer.mQueuedFrames + 1 }) ∧
    (item.mFrameNumber ≠ layer.mLastFrameNumberReceived + 1 →
      onFrameReplacedNoPredecessor layer item waits = none) := by
  refine ⟨?_, ?_, ?_⟩
  · intro hne
    simp [onFrameAvailableNoPredecessor, orderingWaitExits_eq, hne]
  · intro heq
    unfold onFrameAvailableNoPredecessor
    dsimp only
    rw [orderingWaitExits_eq, if_pos (beq_iff_eq.mpr heq)]
  · intro hne
    simp [onFrameReplacedNoPredecessor, orderingWaitExits_eq, hne]

/-- Witness for C8: the out-of-order sample item is still unappended after
five timed waits, while an in-order item (frame 2) is appended at once. -/
theorem frame_wait_blocks_until_in_order_witness :
    onFrameAvailableNoPredecessor sampleLayer sampleLateItem 5 = none ∧
    onFrameAvailableNoPredecessor sampleLayer
      { sampleItem1 with mFrameNumber := 2 } 0 =
      some { mLastFrameNumberReceived := 2
             mQueueItems := [{ sampleItem1 with mFrameNumber := 2 }]
             mQueuedFrames := 1 } := by
  refine ⟨(frame_wait_blocks_until_in_order sampleLayer sampleLateItem 5).1 (by decide), ?_⟩
  rw [(frame_wait_blocks_until_in_order sampleLayer
    { sampleItem1 with mFrameNumber := 2 } 0).2.1 (by decide)]
  decide

end Android
